import Mathlib

/-
Verification of the EdgeOne Pages deployment core
(src/tools/deploy_folder_or_zip.py).

The Python code is embedded shallowly: every network interaction is
abstracted by an `Oracle` that fixes the platform's answers, and every
operation returns its result together with a trace of the outward calls
it made (`List Event`), so that "no later stage runs" style properties
become statements about the trace.
-/

set_option autoImplicit false

namespace EdgeOne

/-! ## String helpers

These model the exact Python string primitives used by the source
(`str.lower`, `str.endswith`, `str.replace`, `os.path.basename`).
They are written as plain structural recursion over `List Char` so that
concrete runs reduce inside the kernel. -/

/-- Boolean list-prefix test, elementwise on characters. -/
def listIsPrefixOf : List Char → List Char → Bool
  | [], _ => true
  | _ :: _, [] => false
  | a :: as, b :: bs => a == b && listIsPrefixOf as bs

/-- Lowercase a string character by character; models Python `str.lower`
on the ASCII file names the tool handles. -/
def strLower (s : String) : String := String.mk (s.data.map Char.toLower)

/-- Test whether `s` ends with `sfx`; models Python `str.endswith`. -/
def strEndsWith (s sfx : String) : Bool :=
  listIsPrefixOf sfx.data.reverse s.data.reverse

/-- Test whether `s` starts with `p`. -/
def strStartsWith (p s : String) : Bool := listIsPrefixOf p.data s.data

/-- Fueled worker for `strReplaceAll`; the fuel is the length of the
input, which suffices because the pattern is non-empty. -/
def replaceAllAux (pat rep : List Char) : Nat → List Char → List Char
  | 0, l => l
  | _ + 1, [] => []
  | fuel + 1, c :: cs =>
    if listIsPrefixOf pat (c :: cs) then
      rep ++ replaceAllAux pat rep fuel ((c :: cs).drop pat.length)
    else
      c :: replaceAllAux pat rep fuel cs

/-- Replace every (non-overlapping, left-to-right) occurrence of `pat`
in `s` by `rep`; models Python `str.replace` for a non-empty pattern. -/
def strReplaceAll (s pat rep : String) : String :=
  String.mk (replaceAllAux pat.data rep.data s.data.length s.data)

/-- Split a character list on the slash character. -/
def splitOnSlash : List Char → List (List Char)
  | [] => [[]]
  | c :: rest =>
    if c == '/' then [] :: splitOnSlash rest
    else
      match splitOnSlash rest with
      | [] => [[c]]
      | x :: xs => (c :: x) :: xs

/-- Final path component; models `os.path.basename` on POSIX paths. -/
def basename (p : String) : String :=
  String.mk ((splitOnSlash p.data).getLastD [])

/-! ## Data model

Shapes of the platform payloads actually read by the source. A missing
string field is represented by `""`, matching the `dict.get(..., '')`
accesses and Python truthiness tests in the code. -/

/-- One entry of a project's `CustomDomains` list. -/
structure CustomDomain where
  domain : String
  status : String
  deriving DecidableEq

/-- A project record as read by the code. -/
structure Project where
  projectId : String
  name : String
  customDomains : List CustomDomain
  presetDomain : String
  deriving DecidableEq

/-- A deployment record as read by the code. -/
structure Deployment where
  deploymentId : String
  status : String
  previewUrl : String
  deriving DecidableEq

/-- Payload of a `DescribePagesCosTempToken` success response. -/
structure CosTokenPayload where
  bucket : String
  region : String
  targetPath : String
  tmpSecretId : String
  tmpSecretKey : String
  sessionToken : String
  deriving DecidableEq

/-- How the temp-token request body is scoped (`ProjectId` vs `ProjectName`). -/
inductive TokenScope where
  | byProjectId (projectId : String)
  | byProjectName (projectName : String)
  deriving DecidableEq

/-- The varying part of each platform API request body (the `Action`
discriminator plus the fields the code fills in). -/
inductive ApiBody where
  | describeProjects (projectId : String) (projectName : String)
  | cosTempToken (scope : TokenScope)
  | createProject (name : String)
  | createDeployment (projectId : String) (env : String) (distType : String)
      (tempBucketPath : String)
  | describeDeployments (projectId : String)
  | encipherToken (text : String)
  deriving DecidableEq

/-- One outward-visible step of the deployer. -/
inductive Event where
  | probe (url : String)
  | api (body : ApiBody)
  | upload (bucket : String) (key : String)
  | sleep (seconds : Nat)
  deriving DecidableEq

/-- The error taxonomy of the spec, one constructor per distinct raise
site of the source; each carries the message the code raises. -/
inductive DeployError where
  | authenticationError (msg : String)
  | unsupportedArtifact (msg : String)
  | projectNotFound (msg : String)
  | projectCreation (msg : String)
  | deploymentCreation (msg : String)
  | deploymentNotFound (msg : String)
  | deploymentTimeout (msg : String)
  | deploymentFailed (msg : String)
  | projectLookup (msg : String)
  | noDomain (msg : String)
  | tokenAcquisition (msg : String)
  | apiError (msg : String)
  | transportError (msg : String)
  deriving DecidableEq

/-- Outcome of probing one candidate endpoint: a transport/parse failure,
or an HTTP status plus the optional `Code` field of the JSON body. -/
inductive ProbeOutcome where
  | fail
  | response (status : Nat) (code : Option Int)
  deriving DecidableEq

/-- The environment's answers to every outward call. An `Except.error m`
answer models a well-formed platform response whose `Code` is non-zero
with message `m` (which `_make_api_request` turns into an exception).
`describeDeployments` is indexed by how many status polls happened
before, so the observed status may change over time. -/
structure Oracle where
  probe : String → ProbeOutcome
  describeProjects : String → String → Except String (List Project)
  cosTempToken : TokenScope → Except String CosTokenPayload
  uploadOk : String → Bool
  createProject : String → Except String String
  createDeployment : String → String → String → String → Except String String
  describeDeployments : Nat → Except String (List Deployment)
  encipherToken : String → Except String (String × String)

/-! ## The deployer operations, translated from the source -/

/-- The message raised when no candidate endpoint accepts the token. -/
def authFailureMsg : String :=
  "Invalid API token. Please check your EdgeOne Pages API token."

/-- Wrap a non-zero-`Code` platform message the way
`_make_api_request` raises it. -/
def apiFail (msg : String) : DeployError := .apiError ("API error: " ++ msg)

/-- The selection test of `_check_and_set_base_url`: transport status 200
and body `Code == 0`. -/
def probeOk : ProbeOutcome → Bool
  | .response 200 (some 0) => true
  | _ => false

/-- The fixed candidate endpoint list of the source. -/
def base_urls : List String :=
  ["https://pages-api.cloud.tencent.com/v1", "https://pages-api.edgeone.ai/v1"]

/-- `EdgeOneDeployer._check_and_set_base_url`, generalised over the
candidate list (the source instantiates it with `base_urls`). -/
def check_and_set_base_url (probeFn : String → ProbeOutcome) :
    List String → Except DeployError String × List Event
  | [] => (.error (.authenticationError authFailureMsg), [])
  | url :: rest =>
    if probeOk (probeFn url) then (.ok url, [Event.probe url])
    else
      match check_and_set_base_url probeFn rest with
      | (r, t) => (r, Event.probe url :: t)

/-- `EdgeOneDeployer._is_zip_file`. -/
def is_zip_file (file_path : String) : Bool :=
  strEndsWith (strLower file_path) ".zip"

/-- `EdgeOneDeployer._get_cos_temp_token`. -/
def get_cos_temp_token (o : Oracle) (project_name temp_project_name : String) :
    Except DeployError CosTokenPayload × List Event :=
  if project_name ≠ "" then
    let ev := Event.api (.describeProjects "" project_name)
    match o.describeProjects "" project_name with
    | .error m => (.error (apiFail m), [ev])
    | .ok [] =>
      (.error (.projectNotFound ("Project " ++ project_name ++ " not found")), [ev])
    | .ok (p :: _) =>
      let scope := TokenScope.byProjectId p.projectId
      let ev2 := Event.api (.cosTempToken scope)
      match o.cosTempToken scope with
      | .error m => (.error (apiFail m), [ev, ev2])
      | .ok payload => (.ok payload, [ev, ev2])
  else
    let scope := TokenScope.byProjectName temp_project_name
    let ev2 := Event.api (.cosTempToken scope)
    match o.cosTempToken scope with
    | .error m => (.error (apiFail m), [ev2])
    | .ok payload => (.ok payload, [ev2])

/-- `EdgeOneDeployer._upload_to_cos`: the key is
`TargetPath ++ "/" ++ basename local_path` and the file is put at that
key. A `false` `uploadOk` answer models a transport exception from the
COS client. -/
def upload_to_cos (o : Oracle) (project_name temp_project_name local_path : String) :
    Except DeployError String × List Event :=
  match get_cos_temp_token o project_name temp_project_name with
  | (.error e, t) => (.error e, t)
  | (.ok payload, t) =>
    let file_name := basename local_path
    let key := payload.targetPath ++ "/" ++ file_name
    let ev := Event.upload payload.bucket key
    if o.uploadOk key then (.ok key, t ++ [ev])
    else (.error (.transportError "COS upload failed"), t ++ [ev])

/-- `EdgeOneDeployer._create_project`. -/
def create_project (o : Oracle) (project_name temp_project_name : String) :
    Except DeployError String × List Event :=
  let name := if project_name ≠ "" then project_name else temp_project_name
  let ev := Event.api (.createProject name)
  match o.createProject name with
  | .error m => (.error (apiFail m), [ev])
  | .ok pid =>
    if pid = "" then (.error (.projectCreation "Failed to create project"), [ev])
    else (.ok pid, [ev])

/-- `EdgeOneDeployer._get_or_create_project`. -/
def get_or_create_project (o : Oracle) (project_name temp_project_name : String) :
    Except DeployError String × List Event :=
  if project_name ≠ "" then
    let ev := Event.api (.describeProjects "" project_name)
    match o.describeProjects "" project_name with
    | .error m => (.error (apiFail m), [ev])
    | .ok (p :: _) => (.ok p.projectId, [ev])
    | .ok [] =>
      match create_project o project_name temp_project_name with
      | (r, t) => (r, ev :: t)
  else
    create_project o project_name temp_project_name

/-- `EdgeOneDeployer._create_deployment`. -/
def create_deployment (o : Oracle) (project_id target_path : String)
    (is_zip : Bool) (environment : String) :
    Except DeployError String × List Event :=
  let dist_type := if is_zip then "Zip" else "Folder"
  let ev := Event.api (.createDeployment project_id environment dist_type target_path)
  match o.createDeployment project_id environment dist_type target_path with
  | .error m => (.error (apiFail m), [ev])
  | .ok did =>
    if did = "" then (.error (.deploymentCreation "Failed to create deployment"), [ev])
    else (.ok did, [ev])

/-- The linear scan of `_get_deployment_status` over the returned page. -/
def findDeployment (deployment_id : String) : List Deployment → Option Deployment
  | [] => none
  | d :: rest =>
    if d.deploymentId = deployment_id then some d
    else findDeployment deployment_id rest

/-- `EdgeOneDeployer._get_deployment_status`; `attempt` indexes the call
into the oracle's time-dependent answer. -/
def get_deployment_status (o : Oracle) (project_id deployment_id : String)
    (attempt : Nat) : Except DeployError Deployment × List Event :=
  let ev := Event.api (.describeDeployments project_id)
  match o.describeDeployments attempt with
  | .error m => (.error (apiFail m), [ev])
  | .ok ds =>
    match findDeployment deployment_id ds with
    | some d => (.ok d, [ev])
    | none =>
      (.error (.deploymentNotFound ("Deployment " ++ deployment_id ++ " not found")), [ev])

/-- The `while attempt < max_attempts` loop of
`_poll_deployment_status`, structurally recursive on the remaining
attempts. -/
def pollLoop (o : Oracle) (project_id deployment_id : String) (attempt : Nat) :
    Nat → Except DeployError Deployment × List Event
  | 0 => (.error (.deploymentTimeout "Deployment timeout"), [])
  | remaining + 1 =>
    match get_deployment_status o project_id deployment_id attempt with
    | (.error e, t) => (.error e, t)
    | (.ok d, t) =>
      if d.status ≠ "Process" then (.ok d, t)
      else
        match pollLoop o project_id deployment_id (attempt + 1) remaining with
        | (r, t2) => (r, t ++ (Event.sleep 5 :: t2))

/-- The attempt cap of `_poll_deployment_status`. -/
def max_attempts : Nat := 60

/-- `EdgeOneDeployer._poll_deployment_status`. -/
def poll_deployment_status (o : Oracle) (project_id deployment_id : String) :
    Except DeployError Deployment × List Event :=
  pollLoop o project_id deployment_id 0 max_attempts

/-- The custom-domain scan of `_get_deployment_url`: first entry whose
`Status` is `"Pass"`, in list order. -/
def firstPassDomain : List CustomDomain → Option String
  | [] => none
  | cd :: rest => if cd.status = "Pass" then some cd.domain else firstPassDomain rest

/-- `EdgeOneDeployer._get_deployment_url`. -/
def get_deployment_url (o : Oracle) (deployment_result : Deployment)
    (project_id environment : String) :
    Except DeployError String × List Event :=
  if deployment_result.status ≠ "Success" then
    (.error (.deploymentFailed
      ("Deployment failed with status: " ++ deployment_result.status)), [])
  else
    let ev := Event.api (.describeProjects project_id "")
    match o.describeProjects project_id "" with
    | .error m => (.error (apiFail m), [ev])
    | .ok [] => (.error (.projectLookup "Failed to get project details"), [ev])
    | .ok (project :: _) =>
      match (if environment = "Production" ∧ project.customDomains ≠ [] then
               firstPassDomain project.customDomains
             else none) with
      | some d => (.ok ("https://" ++ d), [ev])
      | none =>
        let domain0 := strReplaceAll deployment_result.previewUrl "https://" ""
        let domain := if domain0 ≠ "" then domain0 else project.presetDomain
        if domain = "" then
          (.error (.noDomain "Failed to get deployment domain"), [ev])
        else
          let ev2 := Event.api (.encipherToken domain)
          match o.encipherToken domain with
          | .error m => (.error (apiFail m), [ev, ev2])
          | .ok (token, timestamp) =>
            if token = "" ∨ timestamp = "" then
              (.error (.tokenAcquisition "Failed to get access token"), [ev, ev2])
            else
              (.ok ("https://" ++ domain ++ "?eo_token=" ++ token ++
                 "&eo_time=" ++ timestamp), [ev, ev2])

/-- `EdgeOneDeployer.deploy`, generalised over the candidate endpoint
list exactly as `check_and_set_base_url` is. -/
def deployCore (o : Oracle) (urls : List String)
    (project_name temp_project_name local_path environment : String) :
    Except DeployError String × List Event :=
  match check_and_set_base_url o.probe urls with
  | (.error e, t0) => (.error e, t0)
  | (.ok _, t0) =>
    if is_zip_file local_path = false then
      (.error (.unsupportedArtifact "Only ZIP files are supported"), t0)
    else
      match upload_to_cos o project_name temp_project_name local_path with
      | (.error e, t1) => (.error e, t0 ++ t1)
      | (.ok target_path, t1) =>
        match get_or_create_project o project_name temp_project_name with
        | (.error e, t2) => (.error e, t0 ++ t1 ++ t2)
        | (.ok project_id, t2) =>
          match create_deployment o project_id target_path true environment with
          | (.error e, t3) => (.error e, t0 ++ t1 ++ t2 ++ t3)
          | (.ok deployment_id, t3) =>
            match poll_deployment_status o project_id deployment_id with
            | (.error e, t4) => (.error e, t0 ++ t1 ++ t2 ++ t3 ++ t4)
            | (.ok dep, t4) =>
              match get_deployment_url o dep project_id environment with
              | (r, t5) => (r, t0 ++ t1 ++ t2 ++ t3 ++ t4 ++ t5)

/-- The deployer state fixed by `EdgeOneDeployer.__init__`. -/
structure EdgeOneDeployer where
  apiToken : String
  projectName : String
  tempProjectName : String
  deriving DecidableEq

/-- `EdgeOneDeployer.__init__`: the temporary project name is
`"dify-upload-" ++ <unix timestamp>`, fixed at construction. -/
def mkDeployer (api_token project_name : String) (now : Nat) : EdgeOneDeployer :=
  ⟨api_token, project_name, "dify-upload-" ++ toString now⟩

/-- `EdgeOneDeployer.deploy` on the fixed candidate list. -/
def deploy (o : Oracle) (d : EdgeOneDeployer) (local_path environment : String) :
    Except DeployError String × List Event :=
  deployCore o base_urls d.projectName d.tempProjectName local_path environment

/-! ## The tool layer (`DeployFolderOrZipTool._invoke` and `_download_file`) -/

/-- The Dify file object fields read by the tool. -/
structure FileRef where
  filename : String
  url : String
  deriving DecidableEq

/-- One outward-visible step of the tool: the artifact download or a
deployer event. -/
inductive ToolEvent where
  | download (url : String)
  | deployEvent (e : Event)
  deriving DecidableEq

/-- Terminal outcome of one tool invocation. -/
inductive ToolOutcome where
  | missingFile
  | missingToken
  | unsupportedArtifact
  | missingUrl
  | downloadFailed
  | deployError (e : DeployError)
  | success (url : String)
  deriving DecidableEq

/-- `DeployFolderOrZipTool._invoke` (parameter checks, filename
validation, download, then `EdgeOneDeployer.deploy`), with
`_download_file` inlined. -/
def tool_invoke (o : Oracle) (download_ok : Bool) (zip_file : Option FileRef)
    (api_token project_name environment tmp_dir : String) (now : Nat) :
    ToolOutcome × List ToolEvent :=
  match zip_file with
  | none => (.missingFile, [])
  | some f =>
    if api_token = "" then (.missingToken, [])
    else if strEndsWith (strLower f.filename) ".zip" = false then
      (.unsupportedArtifact, [])
    else if f.url = "" then (.missingUrl, [])
    else if download_ok = false then (.downloadFailed, [ToolEvent.download f.url])
    else
      let fname := if f.filename = "" then "upload.zip" else f.filename
      let zip_path := tmp_dir ++ "/" ++ fname
      let d := mkDeployer api_token project_name now
      match deploy o d zip_path environment with
      | (.error e, t) =>
        (.deployError e, ToolEvent.download f.url :: t.map ToolEvent.deployEvent)
      | (.ok u, t) =>
        (.success u, ToolEvent.download f.url :: t.map ToolEvent.deployEvent)

/-! ## Trace classifiers and observation helpers -/

/-- Is this event an endpoint probe? -/
def isProbeEv : Event → Bool
  | .probe _ => true
  | _ => false

/-- Is this event a `CreatePagesDeployment` request? -/
def isCreateDeploymentEv : Event → Bool
  | .api (.createDeployment _ _ _ _) => true
  | _ => false

/-- Is this event a `CreatePagesProject` request? -/
def isCreateProjectEv : Event → Bool
  | .api (.createProject _) => true
  | _ => false

/-- Is this event a `DescribePagesProjects` request? -/
def isDescribeProjectsEv : Event → Bool
  | .api (.describeProjects _ _) => true
  | _ => false

/-- Is this event a `DescribePagesEncipherToken` request? -/
def isEncipherEv : Event → Bool
  | .api (.encipherToken _) => true
  | _ => false

/-- Is this event a `DescribePagesDeployments` request? -/
def isFetchDeploymentsEv : Event → Bool
  | .api (.describeDeployments _) => true
  | _ => false

/-- Number of deployment-status fetches in a trace. -/
def fetchCount (t : List Event) : Nat := (t.filter isFetchDeploymentsEv).length

/-- Number of project-creation requests in a trace. -/
def createCount (t : List Event) : Nat := (t.filter isCreateProjectEv).length

/-- The result the poller observes on its `n`-th status fetch. -/
def obsAt (o : Oracle) (project_id deployment_id : String) (n : Nat) :
    Except DeployError Deployment :=
  (get_deployment_status o project_id deployment_id n).1

/-- Whether the `n`-th status fetch finds the deployment still in
state `"Process"`. -/
def obsProcess (o : Oracle) (project_id deployment_id : String) (n : Nat) : Bool :=
  match obsAt o project_id deployment_id n with
  | .ok d => d.status == "Process"
  | .error _ => false

/-- Decidable equality for `Except`, so that concrete runs can be
checked by `decide`. -/
instance {e a : Type} [DecidableEq e] [DecidableEq a] : DecidableEq (Except e a) :=
  fun x y =>
    match x, y with
    | .error u, .error v =>
      if h : u = v then .isTrue (congrArg Except.error h)
      else .isFalse fun hh => h (Except.error.inj hh)
    | .error _, .ok _ => .isFalse fun hh => Except.noConfusion hh
    | .ok _, .error _ => .isFalse fun hh => Except.noConfusion hh
    | .ok u, .ok v =>
      if h : u = v then .isTrue (congrArg Except.ok h)
      else .isFalse fun hh => h (Except.ok.inj hh)

/-! ## Concrete environments used by the witnesses -/

/-- An environment in which every endpoint probe fails. -/
def oracleAllFail : Oracle where
  probe := fun _ => .fail
  describeProjects := fun _ _ => .ok []
  cosTempToken := fun _ => .ok ⟨"", "", "", "", "", ""⟩
  uploadOk := fun _ => true
  createProject := fun _ => .ok ""
  createDeployment := fun _ _ _ _ => .ok ""
  describeDeployments := fun _ => .ok []
  encipherToken := fun _ => .ok ("", "")

/-- An environment whose deployment stays in state `"Process"` forever. -/
def oracleAllProcess : Oracle where
  probe := fun _ => .response 200 (some 0)
  describeProjects := fun _ _ => .ok []
  cosTempToken := fun _ => .ok ⟨"", "", "", "", "", ""⟩
  uploadOk := fun _ => true
  createProject := fun _ => .ok "pid1"
  createDeployment := fun _ _ _ _ => .ok "did1"
  describeDeployments := fun _ => .ok [⟨"did1", "Process", ""⟩]
  encipherToken := fun _ => .ok ("", "")

/-- The single project returned by `happyOracle`. -/
def happyProject : Project := ⟨"pid1", "dify-upload-1700000000", [], ""⟩

/-- A fully successful environment: the first endpoint accepts the
token, the upload succeeds, the deployment immediately reports
`"Success"` with a preview URL, and the encipher token is issued. -/
def happyOracle : Oracle where
  probe := fun u =>
    if u = "https://pages-api.cloud.tencent.com/v1" then .response 200 (some 0) else .fail
  describeProjects := fun pid _ => if pid = "pid1" then .ok [happyProject] else .ok []
  cosTempToken := fun _ => .ok ⟨"bkt", "ap-region", "tp", "sid", "skey", "stok"⟩
  uploadOk := fun _ => true
  createProject := fun _ => .ok "pid1"
  createDeployment := fun _ _ _ _ => .ok "did1"
  describeDeployments := fun _ => .ok [⟨"did1", "Success", "https://preview123.pages.dev"⟩]
  encipherToken := fun _ => .ok ("abc", "1700000000")

/-! ## Properties of the endpoint resolver (claim C1) -/

/-- Every event emitted by `check_and_set_base_url` is a probe. -/
theorem check_trace_probes (probeFn : String → ProbeOutcome) (urls : List String) :
    ∀ e ∈ (check_and_set_base_url probeFn urls).2, ∃ u, e = Event.probe u := by
  induction urls with
  | nil => intro e he; simp [check_and_set_base_url] at he
  | cons url rest ih =>
    intro e he
    unfold check_and_set_base_url at he
    rcases hc : check_and_set_base_url probeFn rest with ⟨r, t⟩
    rw [hc] at he
    split at he
    · simp at he; exact ⟨url, he⟩
    · simp at he
      rcases he with he | he
      · exact ⟨url, he⟩
      · exact ih e (by rw [hc]; exact he)

/-- When every candidate probe fails, the resolver raises the
authentication error. -/
theorem check_fail_of_all_bad (probeFn : String → ProbeOutcome) (urls : List String)
    (h : ∀ u ∈ urls, probeOk (probeFn u) = false) :
    (check_and_set_base_url probeFn urls).1 =
      .error (.authenticationError authFailureMsg) := by
  induction urls with
  | nil => rfl
  | cons url rest ih =>
    have hu : probeOk (probeFn url) = false := h url (by simp)
    have ih2 := ih (fun u hu2 => h u (List.mem_cons_of_mem _ hu2))
    rcases hc : check_and_set_base_url probeFn rest with ⟨r, t⟩
    rw [hc] at ih2
    unfold check_and_set_base_url
    rw [hc]
    simp [hu]
    simpa using ih2

/-- C1: for every credential (oracle) and every candidate endpoint
list, if no candidate answers the probe with transport status 200 and
body `Code = 0`, the whole deploy operation fails with the
authentication error and the emitted trace consists of probe events
only — so no storage-token request, no upload, no project lookup or
creation, and no deployment registration is attempted. -/
theorem deploy_auth_failure (o : Oracle) (urls : List String)
    (project_name temp_project_name local_path environment : String)
    (h : ∀ u ∈ urls, probeOk (o.probe u) = false) :
    (deployCore o urls project_name temp_project_name local_path environment).1 =
      .error (.authenticationError authFailureMsg) ∧
    ∀ e ∈ (deployCore o urls project_name temp_project_name local_path environment).2,
      ∃ u, e = Event.probe u := by
  have h1 := check_fail_of_all_bad o.probe urls h
  have h2 := check_trace_probes o.probe urls
  rcases hc : check_and_set_base_url o.probe urls with ⟨r, t⟩
  rw [hc] at h1 h2
  simp at h1
  subst h1
  unfold deployCore
  rw [hc]
  exact ⟨rfl, h2⟩

/-- Witness for `deploy_auth_failure` at a concrete environment. -/
theorem deploy_auth_failure_witness :
    (∀ u ∈ base_urls, probeOk (oracleAllFail.probe u) = false) ∧
    ((deployCore oracleAllFail base_urls "" "t" "/tmp/site.zip" "Production").1 =
      .error (.authenticationError authFailureMsg) ∧
    ∀ e ∈ (deployCore oracleAllFail base_urls "" "t" "/tmp/site.zip" "Production").2,
      ∃ u, e = Event.probe u) :=
  ⟨by decide,
   deploy_auth_failure oracleAllFail base_urls "" "t" "/tmp/site.zip" "Production"
     (by decide)⟩

/-! ## Properties of the status poller (claim C2) -/

/-- One status fetch emits exactly one `DescribePagesDeployments`
request, whatever the platform answers. -/
theorem get_deployment_status_trace (o : Oracle) (project_id deployment_id : String)
    (n : Nat) :
    (get_deployment_status o project_id deployment_id n).2 =
      [Event.api (.describeDeployments project_id)] := by
  unfold get_deployment_status
  rcases o.describeDeployments n with m | ds
  · rfl
  · simp only
    rcases findDeployment deployment_id ds with _ | d <;> rfl

/-- The poll loop issues at most `fuel` status fetches. -/
theorem pollLoop_fetchCount (o : Oracle) (project_id deployment_id : String) :
    ∀ fuel attempt,
      fetchCount (pollLoop o project_id deployment_id attempt fuel).2 ≤ fuel := by
  intro fuel
  induction fuel with
  | zero => intro attempt; simp [pollLoop, fetchCount]
  | succ m ih =>
    intro attempt
    unfold pollLoop
    rcases hg : get_deployment_status o project_id deployment_id attempt with ⟨r, t⟩
    have ht : t = [Event.api (.describeDeployments project_id)] := by
      have h0 := get_deployment_status_trace o project_id deployment_id attempt
      rw [hg] at h0; exact h0
    subst ht
    cases r with
    | error e => simp [fetchCount, isFetchDeploymentsEv]
    | ok d =>
      by_cases hs : d.status = "Process"
      · simp only [hs]
        rcases hp : pollLoop o project_id deployment_id (attempt + 1) m with ⟨r2, t2⟩
        have ih2 := ih (attempt + 1)
        rw [hp] at ih2
        simp [fetchCount, List.filter_append, isFetchDeploymentsEv] at ih2 ⊢
        omega
      · simp [hs, fetchCount, isFetchDeploymentsEv]

/-- Every sleep the poll loop performs lasts exactly 5 time-units. -/
theorem pollLoop_sleep_five (o : Oracle) (project_id deployment_id : String) :
    ∀ fuel attempt, ∀ e ∈ (pollLoop o project_id deployment_id attempt fuel).2,
      ∀ n, e = Event.sleep n → n = 5 := by
  intro fuel
  induction fuel with
  | zero => intro attempt e he; simp [pollLoop] at he
  | succ m ih =>
    intro attempt e he
    unfold pollLoop at he
    rcases hg : get_deployment_status o project_id deployment_id attempt with ⟨r, t⟩
    have ht : t = [Event.api (.describeDeployments project_id)] := by
      have h0 := get_deployment_status_trace o project_id deployment_id attempt
      rw [hg] at h0; exact h0
    rw [hg] at he
    subst ht
    cases r with
    | error e2 =>
      simp at he
      subst he; intro n hn; cases hn
    | ok d =>
      by_cases hs : d.status = "Process"
      · simp only [hs] at he
        rcases hp : pollLoop o project_id deployment_id (attempt + 1) m with ⟨r2, t2⟩
        rw [hp] at he
        simp at he
        rcases he with he | he | he
        · subst he; intro n hn; cases hn
        · subst he; intro n hn; cases hn; rfl
        · exact ih (attempt + 1) e (by rw [hp]; exact he)
      · simp [hs] at he
        subst he; intro n hn; cases hn

/-- If the deployment reads `"Process"` on each of the next `fuel`
attempts, the poll loop times out. -/
theorem pollLoop_timeout (o : Oracle) (project_id deployment_id : String) :
    ∀ fuel attempt,
      (∀ n, attempt ≤ n → n < attempt + fuel →
        obsProcess o project_id deployment_id n = true) →
      (pollLoop o project_id deployment_id attempt fuel).1 =
        .error (.deploymentTimeout "Deployment timeout") := by
  intro fuel
  induction fuel with
  | zero => intro attempt h; rfl
  | succ m ih =>
    intro attempt h
    have hp : obsProcess o project_id deployment_id attempt = true :=
      h attempt le_rfl (by omega)
    unfold pollLoop
    unfold obsProcess obsAt at hp
    rcases hg : get_deployment_status o project_id deployment_id attempt with ⟨r, t⟩
    rw [hg] at hp
    cases r with
    | error e => simp at hp
    | ok d =>
      simp at hp
      simp only [hp]
      rcases hp2 : pollLoop o project_id deployment_id (attempt + 1) m with ⟨r2, t2⟩
      have h2 := ih (attempt + 1) (fun n h1 hlt => h n (by omega) (by omega))
      rw [hp2] at h2
      simpa using h2

/-- If the first non-`"Process"` observation happens within the fuel
budget, the poll loop returns exactly that record. -/
theorem pollLoop_first_stop (o : Oracle) (project_id deployment_id : String) :
    ∀ fuel attempt k d, attempt ≤ k → k < attempt + fuel →
      (∀ n, attempt ≤ n → n < k → obsProcess o project_id deployment_id n = true) →
      obsAt o project_id deployment_id k = .ok d → d.status ≠ "Process" →
      (pollLoop o project_id deployment_id attempt fuel).1 = .ok d := by
  intro fuel
  induction fuel with
  | zero => intro attempt k d h1 h2 _ _ _; omega
  | succ m ih =>
    intro attempt k d hak hkf hpre hobs hst
    unfold pollLoop
    by_cases heq : attempt = k
    · subst heq
      unfold obsAt at hobs
      rcases hg : get_deployment_status o project_id deployment_id attempt with ⟨r, t⟩
      rw [hg] at hobs
      simp at hobs
      subst hobs
      simp [hst]
    · have hlt : attempt < k := lt_of_le_of_ne hak heq
      have hp := hpre attempt le_rfl hlt
      unfold obsProcess obsAt at hp
      rcases hg : get_deployment_status o project_id deployment_id attempt with ⟨r, t⟩
      rw [hg] at hp
      cases r with
      | error e => simp at hp
      | ok d0 =>
        simp at hp
        simp only [hp]
        rcases hp2 : pollLoop o project_id deployment_id (attempt + 1) m with ⟨r2, t2⟩
        have h2 := ih (attempt + 1) k d (by omega) (by omega)
          (fun n h1 hlt2 => hpre n (by omega) hlt2) hobs hst
        rw [hp2] at h2
        simpa using h2

/-- C2: the status poll always terminates within 60 attempts (at most
60 fetches), each wait between attempts is exactly 5 time-units, a
deployment observed as `"Process"` on all 60 attempts yields the
deployment-timeout error, and the first attempt that observes any
other status makes the loop return exactly that record. -/
theorem poll_terminates_spec (o : Oracle) (project_id deployment_id : String) :
    fetchCount (poll_deployment_status o project_id deployment_id).2 ≤ 60 ∧
    (∀ e ∈ (poll_deployment_status o project_id deployment_id).2,
      ∀ n, e = Event.sleep n → n = 5) ∧
    ((∀ n, n < 60 → obsProcess o project_id deployment_id n = true) →
      (poll_deployment_status o project_id deployment_id).1 =
        .error (.deploymentTimeout "Deployment timeout")) ∧
    (∀ k d, k < 60 →
      (∀ n, n < k → obsProcess o project_id deployment_id n = true) →
      obsAt o project_id deployment_id k = .ok d → d.status ≠ "Process" →
      (poll_deployment_status o project_id deployment_id).1 = .ok d) := by
  refine ⟨?_, ?_, ?_, ?_⟩
  · exact pollLoop_fetchCount o project_id deployment_id 60 0
  · exact pollLoop_sleep_five o project_id deployment_id 60 0
  · intro h
    exact pollLoop_timeout o project_id deployment_id 60 0
      (fun n h1 h2 => h n (by omega))
  · intro k d hk hpre hobs hst
    exact pollLoop_first_stop o project_id deployment_id 60 0 k d (by omega) (by omega)
      (fun n h1 h2 => hpre n h2) hobs hst

/-- Witness for `poll_terminates_spec`: a deployment that stays in
`"Process"` on all 60 attempts times out. -/
theorem poll_terminates_spec_witness :
    (∀ n, n < 60 → obsProcess oracleAllProcess "pid1" "did1" n = true) ∧
    (poll_deployment_status oracleAllProcess "pid1" "did1").1 =
      .error (.deploymentTimeout "Deployment timeout") :=
  ⟨by decide, (poll_terminates_spec oracleAllProcess "pid1" "did1").2.2.1 (by decide)⟩

/-! ## Properties of the URL resolver (claims C4, C5, C6) -/

/-- C6: the URL resolver fails with the deployment-failed error exactly
when the terminal record's status is not `"Success"`; in that case the
trace is empty (so the failure happens before any project re-fetch or
domain lookup), the message carries the platform status string, and on
a `"Success"` record a deployment-failed error can never be produced. -/
theorem url_requires_success (o : Oracle) (dep : Deployment)
    (project_id environment : String) :
    (dep.status ≠ "Success" →
      get_deployment_url o dep project_id environment =
        (.error (.deploymentFailed
          ("Deployment failed with status: " ++ dep.status)), [])) ∧
    (dep.status = "Success" →
      ∀ msg, (get_deployment_url o dep project_id environment).1 ≠
        .error (.deploymentFailed msg)) ∧
    (∃ pre post, ("Deployment failed with status: " ++ dep.status : String) =
      pre ++ dep.status ++ post) := by
  refine ⟨?_, ?_, ?_⟩
  · intro h
    unfold get_deployment_url
    rw [if_pos h]
  · intro hs msg
    unfold get_deployment_url
    rw [if_neg (by simp [hs])]
    rcases o.describeProjects project_id "" with m | ps
    · simp [apiFail]
    · rcases ps with _ | ⟨proj, rest⟩
      · simp
      · simp only
        rcases (if environment = "Production" ∧ proj.customDomains ≠ [] then
            firstPassDomain proj.customDomains else none) with _ | d
        · simp only
          repeat' split
          all_goals simp [apiFail]
        · simp
  · exact ⟨"Deployment failed with status: ", "", by simp⟩

/-- Witness for `url_requires_success` on a record whose status is
`"Failed"` (spec scenario D). -/
theorem url_requires_success_witness :
    get_deployment_url oracleAllFail ⟨"d1", "Failed", ""⟩ "p1" "Production" =
      (.error (.deploymentFailed ("Deployment failed with status: " ++ "Failed")), []) :=
  (url_requires_success oracleAllFail ⟨"d1", "Failed", ""⟩ "p1" "Production").1
    (by decide)

/-- C5: on a successful production deployment, the first custom domain
whose status is `"Pass"` (in list order) is returned as
`https://Domain`, and the resolver's trace is the single project
re-fetch — in particular no encipher-token request is made. -/
theorem url_production_custom_domain (o : Oracle) (dep : Deployment)
    (project_id : String) (proj : Project) (rest : List Project) (d : String)
    (hs : dep.status = "Success")
    (hlookup : o.describeProjects project_id "" = .ok (proj :: rest))
    (hpass : firstPassDomain proj.customDomains = some d) :
    get_deployment_url o dep project_id "Production" =
      (.ok ("https://" ++ d), [Event.api (.describeProjects project_id "")]) := by
  have hne : proj.customDomains ≠ [] := by
    intro h0
    rw [h0] at hpass
    simp [firstPassDomain] at hpass
  unfold get_deployment_url
  rw [if_neg (by simp [hs])]
  rw [hlookup]
  simp only
  rw [if_pos (show True ∧ proj.customDomains ≠ [] from ⟨trivial, hne⟩), hpass]

/-- The project of spec scenario A: one custom domain, verified. -/
def projectA : Project := ⟨"p1", "site", [⟨"example.com", "Pass"⟩], ""⟩

/-- Environment for spec scenario A. -/
def oracleA : Oracle where
  probe := fun _ => .response 200 (some 0)
  describeProjects := fun pid _ => if pid = "p1" then .ok [projectA] else .ok []
  cosTempToken := fun _ => .ok ⟨"", "", "", "", "", ""⟩
  uploadOk := fun _ => true
  createProject := fun _ => .ok "p1"
  createDeployment := fun _ _ _ _ => .ok "d1"
  describeDeployments := fun _ => .ok [⟨"d1", "Success", ""⟩]
  encipherToken := fun _ => .ok ("", "")

/-- Witness for `url_production_custom_domain` (spec scenario A). -/
theorem url_production_custom_domain_witness :
    get_deployment_url oracleA ⟨"d1", "Success", ""⟩ "p1" "Production" =
      (.ok ("https://" ++ "example.com"), [Event.api (.describeProjects "p1" "")]) :=
  url_production_custom_domain oracleA ⟨"d1", "Success", ""⟩ "p1" projectA [] "example.com"
    (by decide) (by decide) (by decide)

/-- Domain derivation exactly as claim C4 words it: strip only a
leading "https://" prefix from `PreviewUrl`, and fall back to
`PresetDomain` precisely when `PreviewUrl` is empty. -/
def claimedDeriveDomain (preview_url preset_domain : String) : String :=
  if preview_url = "" then preset_domain
  else if strStartsWith "https://" preview_url then String.mk (preview_url.data.drop 8)
  else preview_url

/-- Project used by the C4 counterexample. -/
def projectC4 : Project := ⟨"p1", "site", [], "preset.example"⟩

/-- Environment for the C4 counterexample. -/
def oracleC4 : Oracle where
  probe := fun _ => .response 200 (some 0)
  describeProjects := fun pid _ => if pid = "p1" then .ok [projectC4] else .ok []
  cosTempToken := fun _ => .ok ⟨"", "", "", "", "", ""⟩
  uploadOk := fun _ => true
  createProject := fun _ => .ok "p1"
  createDeployment := fun _ _ _ _ => .ok "d1"
  describeDeployments := fun _ => .ok []
  encipherToken := fun _ => .ok ("tok", "111")

/-- C4 counterexample: on `PreviewUrl = "x.https://y"` the code removes
every occurrence of the substring "https://" (Python `str.replace`),
deriving domain `"x.y"`, whereas the claim's leading-prefix stripping
keeps `"x.https://y"`; the resulting URLs differ, so the claim as
stated is false on this input. -/
theorem url_domain_strip_counterexample :
    (get_deployment_url oracleC4 ⟨"d1", "Success", "x.https://y"⟩ "p1" "Preview").1 =
      .ok "https://x.y?eo_token=tok&eo_time=111" ∧
    claimedDeriveDomain "x.https://y" "preset.example" = "x.https://y" ∧
    ("https://" ++ claimedDeriveDomain "x.https://y" "preset.example" ++
        "?eo_token=tok&eo_time=111" : String) ≠
      "https://x.y?eo_token=tok&eo_time=111" := by
  decide

/-- C4 amended: outside the verified-custom-domain case the resolver
derives the domain by removing every occurrence of "https://" from
`deployment.PreviewUrl`, falls back to `project.PresetDomain` when that
stripped string is empty, fails with the no-domain error when the
fallback is empty too, and otherwise returns exactly
`https://domain?eo_token=Token&eo_time=Timestamp` with the Token and
Timestamp from the encipher-token call. -/
theorem url_preview_token_path (o : Oracle) (dep : Deployment)
    (project_id environment : String) (proj : Project) (rest : List Project)
    (domain : String)
    (hs : dep.status = "Success")
    (hlookup : o.describeProjects project_id "" = .ok (proj :: rest))
    (hnoprod : environment = "Production" → firstPassDomain proj.customDomains = none)
    (hdomain : domain = (if strReplaceAll dep.previewUrl "https://" "" ≠ "" then
        strReplaceAll dep.previewUrl "https://" "" else proj.presetDomain)) :
    (domain = "" →
      (get_deployment_url o dep project_id environment).1 =
        .error (.noDomain "Failed to get deployment domain")) ∧
    (∀ token timestamp, domain ≠ "" →
      o.encipherToken domain = .ok (token, timestamp) →
      token ≠ "" → timestamp ≠ "" →
      (get_deployment_url o dep project_id environment).1 =
        .ok ("https://" ++ domain ++ "?eo_token=" ++ token ++
          "&eo_time=" ++ timestamp)) := by
  have hprod : (if environment = "Production" ∧ proj.customDomains ≠ [] then
      firstPassDomain proj.customDomains else none) = none := by
    by_cases h : environment = "Production" ∧ proj.customDomains ≠ []
    · rw [if_pos h]; exact hnoprod h.1
    · rw [if_neg h]
  constructor
  · intro h0
    unfold get_deployment_url
    rw [if_neg (by simp [hs])]
    rw [hlookup]
    simp only
    rw [hprod]
    simp only
    rw [← hdomain, if_pos h0]
  · intro token timestamp hne henc htok hts
    unfold get_deployment_url
    rw [if_neg (by simp [hs])]
    rw [hlookup]
    simp only
    rw [hprod]
    simp only
    rw [← hdomain, if_neg hne, henc]
    simp only
    rw [if_neg (by simp [htok, hts])]

/-- Project used by spec scenario B. -/
def projectB : Project := ⟨"p1", "site", [], ""⟩

/-- Environment for spec scenario B. -/
def oracleB : Oracle where
  probe := fun _ => .response 200 (some 0)
  describeProjects := fun pid _ => if pid = "p1" then .ok [projectB] else .ok []
  cosTempToken := fun _ => .ok ⟨"", "", "", "", "", ""⟩
  uploadOk := fun _ => true
  createProject := fun _ => .ok "p1"
  createDeployment := fun _ _ _ _ => .ok "d1"
  describeDeployments := fun _ => .ok []
  encipherToken := fun t =>
    if t = "preview123.pages.dev" then .ok ("abc", "1700000000") else .ok ("", "")

/-- Witness for `url_preview_token_path` (spec scenario B). -/
theorem url_preview_token_path_witness :
    (get_deployment_url oracleB ⟨"d1", "Success", "https://preview123.pages.dev"⟩
        "p1" "Preview").1 =
      .ok ("https://" ++ "preview123.pages.dev" ++ "?eo_token=" ++ "abc" ++
        "&eo_time=" ++ "1700000000") :=
  (url_preview_token_path oracleB ⟨"d1", "Success", "https://preview123.pages.dev"⟩
      "p1" "Preview" projectB [] "preview123.pages.dev"
      (by decide) (by decide) (by decide) (by decide)).2
    "abc" "1700000000" (by decide) (by decide) (by decide) (by decide)

/-! ## The tool-level artifact check (claim C7) -/

/-- C7: a tool invocation whose artifact filename does not end in
".zip" (case-insensitively) fails immediately with the
unsupported-artifact outcome and an empty trace: zero network calls,
so no download, no endpoint probe, no storage-token request and no
upload happens before the failure. -/
theorem non_zip_rejected (o : Oracle) (download_ok : Bool) (f : FileRef)
    (api_token project_name environment tmp_dir : String) (now : Nat)
    (htok : api_token ≠ "")
    (hname : strEndsWith (strLower f.filename) ".zip" = false) :
    tool_invoke o download_ok (some f) api_token project_name environment tmp_dir now =
      (.unsupportedArtifact, []) := by
  unfold tool_invoke
  dsimp only
  rw [if_neg htok, if_pos hname]

/-- Witness for `non_zip_rejected` on the artifact "site.txt" of spec
scenario C. -/
theorem non_zip_rejected_witness :
    tool_invoke oracleAllFail true (some ⟨"site.txt", "http://files/site.txt"⟩)
        "tok" "" "Production" "/tmp/d" 1700000000 =
      (.unsupportedArtifact, []) :=
  non_zip_rejected oracleAllFail true ⟨"site.txt", "http://files/site.txt"⟩
    "tok" "" "Production" "/tmp/d" 1700000000 (by decide) (by decide)

/-! ## Project resolution with a name hint (claim C8) -/

/-- When the hint is non-empty and the platform returns a non-empty
ProjectId, `_create_project` succeeds with that id, after exactly one
creation request named by the hint. -/
theorem create_project_ok (o : Oracle) (hint tpn pid : String) (hhint : hint ≠ "")
    (hcp : o.createProject hint = .ok pid) (hpid : pid ≠ "") :
    create_project o hint tpn = (.ok pid, [Event.api (.createProject hint)]) := by
  unfold create_project
  dsimp only
  rw [if_pos hhint, hcp]
  dsimp only
  rw [if_neg hpid]

/-- C8: with a non-empty project-name hint that matches no existing
project, `_get_or_create_project` issues exactly one
CreatePagesProject request, named by the hint, and returns the created
ProjectId, while `_get_cos_temp_token` with the same hint fails with
the project-not-found error and issues no creation request at all. -/
theorem hinted_missing_project (o : Oracle) (hint temp_project_name : String)
    (hhint : hint ≠ "")
    (hmiss : o.describeProjects "" hint = .ok []) :
    (∀ pid, o.createProject hint = .ok pid → pid ≠ "" →
      (get_or_create_project o hint temp_project_name).1 = .ok pid ∧
      createCount (get_or_create_project o hint temp_project_name).2 = 1 ∧
      Event.api (.createProject hint) ∈
        (get_or_create_project o hint temp_project_name).2) ∧
    (get_cos_temp_token o hint temp_project_name).1 =
      .error (.projectNotFound ("Project " ++ hint ++ " not found")) ∧
    createCount (get_cos_temp_token o hint temp_project_name).2 = 0 := by
  refine ⟨?_, ?_, ?_⟩
  · intro pid hcp hpid
    have hval : get_or_create_project o hint temp_project_name =
        (.ok pid, [Event.api (.describeProjects "" hint),
          Event.api (.createProject hint)]) := by
      unfold get_or_create_project
      rw [if_pos hhint, hmiss]
      simp only
      rw [create_project_ok o hint temp_project_name pid hhint hcp hpid]
    rw [hval]
    refine ⟨rfl, ?_, ?_⟩
    · simp [createCount, isCreateProjectEv]
    · simp
  · unfold get_cos_temp_token
    rw [if_pos hhint, hmiss]
  · unfold get_cos_temp_token
    rw [if_pos hhint, hmiss]
    simp [createCount, isCreateProjectEv]

/-- Environment for the C8 witness: no project matches any lookup and
creation returns the fresh id "newpid". -/
def oracleC8 : Oracle where
  probe := fun _ => .response 200 (some 0)
  describeProjects := fun _ _ => .ok []
  cosTempToken := fun _ => .ok ⟨"", "", "", "", "", ""⟩
  uploadOk := fun _ => true
  createProject := fun n => if n = "mysite" then .ok "newpid" else .ok ""
  createDeployment := fun _ _ _ _ => .ok ""
  describeDeployments := fun _ => .ok []
  encipherToken := fun _ => .ok ("", "")

/-- Witness for `hinted_missing_project` at a concrete environment
whose lookup finds nothing and whose creation returns "newpid". -/
theorem hinted_missing_project_witness :
    (get_or_create_project oracleC8 "mysite" "tpn").1 = .ok "newpid" ∧
    createCount (get_or_create_project oracleC8 "mysite" "tpn").2 = 1 ∧
    (get_cos_temp_token oracleC8 "mysite" "tpn").1 =
      .error (.projectNotFound ("Project " ++ "mysite" ++ " not found")) := by
  have h := hinted_missing_project oracleC8 "mysite" "tpn" (by decide) (by decide)
  have h1 := h.1 "newpid" (by decide) (by decide)
  exact ⟨h1.1, h1.2.1, h.2.1⟩

/-! ## The generated temporary project name (claim C10) -/

/-- C10: with an empty project-name hint the project stage performs no
lookup at all — its trace is exactly one CreatePagesProject request
named with the construction-time temporary name
"dify-upload-" ++ timestamp — and the temp-token request of the same
deployer is scoped by ProjectName with that same generated name, never
by ProjectId. -/
theorem temp_name_scoping (o : Oracle) (api_token : String) (now : Nat) :
    (mkDeployer api_token "" now).tempProjectName = "dify-upload-" ++ toString now ∧
    (get_or_create_project o (mkDeployer api_token "" now).projectName
        (mkDeployer api_token "" now).tempProjectName).2 =
      [Event.api (.createProject ("dify-upload-" ++ toString now))] ∧
    (get_cos_temp_token o (mkDeployer api_token "" now).projectName
        (mkDeployer api_token "" now).tempProjectName).2 =
      [Event.api (.cosTempToken (.byProjectName ("dify-upload-" ++ toString now)))] := by
  refine ⟨rfl, ?_, ?_⟩
  · show (get_or_create_project o "" ("dify-upload-" ++ toString now)).2 = _
    unfold get_or_create_project
    rw [if_neg (by simp)]
    unfold create_project
    dsimp only
    rw [if_neg (by simp)]
    split
    · rfl
    · split <;> rfl
  · show (get_cos_temp_token o "" ("dify-upload-" ++ toString now)).2 = _
    unfold get_cos_temp_token
    rw [if_neg (by simp)]
    dsimp only
    split <;> rfl

/-! ## Every returned URL is https (claim C9) -/

/-- Appending characters preserves a list-prefix. -/
theorem listIsPrefixOf_app (l m k : List Char) (h : listIsPrefixOf l m = true) :
    listIsPrefixOf l (m ++ k) = true := by
  induction l generalizing m with
  | nil => rfl
  | cons c cs ih =>
    cases m with
    | nil => simp [listIsPrefixOf] at h
    | cons b bs =>
      simp [listIsPrefixOf] at h ⊢
      exact ⟨h.1, ih bs h.2⟩

/-- The character data of an appended string. -/
theorem strData_app (a b : String) : (a ++ b).data = a.data ++ b.data := by
  cases a; cases b; rfl

/-- A list is a prefix of itself extended on the right. -/
theorem listIsPrefixOf_self (l m : List Char) : listIsPrefixOf l (l ++ m) = true := by
  induction l with
  | nil => rfl
  | cons c cs ih => simp [listIsPrefixOf, ih]

/-- A string starts with itself extended on the right. -/
theorem strStartsWith_self_app (s t : String) : strStartsWith s (s ++ t) = true := by
  unfold strStartsWith
  rw [strData_app]
  exact listIsPrefixOf_self _ _

/-- A starts-with witness survives appending on the right. -/
theorem strStartsWith_app (s a t : String) (h : strStartsWith s a = true) :
    strStartsWith s (a ++ t) = true := by
  unfold strStartsWith at h ⊢
  rw [strData_app]
  exact listIsPrefixOf_app _ _ _ h

/-- The tokened URL shape starts with "https://". -/
theorem startsHttps_full (domain token ts : String) :
    strStartsWith "https://"
      ("https://" ++ domain ++ "?eo_token=" ++ token ++ "&eo_time=" ++ ts) = true := by
  refine strStartsWith_app _ _ _ ?_
  refine strStartsWith_app _ _ _ ?_
  refine strStartsWith_app _ _ _ ?_
  refine strStartsWith_app _ _ _ ?_
  exact strStartsWith_self_app _ _

/-- Every `.ok` result of the URL resolver starts with "https://". -/
theorem url_ok_https (o : Oracle) (dep : Deployment)
    (project_id environment url : String)
    (h : (get_deployment_url o dep project_id environment).1 = .ok url) :
    strStartsWith "https://" url = true := by
  unfold get_deployment_url at h
  split at h
  · simp at h
  · split at h
    · simp at h
    · simp at h
    · split at h
      · simp at h
        subst h
        exact strStartsWith_self_app _ _
      · dsimp only at h
        repeat' split at h
        all_goals simp at h
        all_goals subst h
        all_goals exact startsHttps_full _ _ _

/-- C9: every URL returned by a successful deploy operation begins
with the literal "https://", whichever of the three resolver return
paths produced it. -/
theorem deploy_url_https (o : Oracle) (urls : List String)
    (project_name temp_project_name local_path environment url : String)
    (h : (deployCore o urls project_name temp_project_name local_path environment).1 =
      .ok url) :
    strStartsWith "https://" url = true := by
  unfold deployCore at h
  rcases hc : check_and_set_base_url o.probe urls with ⟨r0, t0⟩
  rw [hc] at h
  cases r0 with
  | error e => simp at h
  | ok b =>
    dsimp only at h
    split at h
    · simp at h
    · rcases hu : upload_to_cos o project_name temp_project_name local_path with ⟨r1, t1⟩
      rw [hu] at h
      cases r1 with
      | error e => simp at h
      | ok target_path =>
        dsimp only at h
        rcases hg : get_or_create_project o project_name temp_project_name with ⟨r2, t2⟩
        rw [hg] at h
        cases r2 with
        | error e => simp at h
        | ok project_id =>
          dsimp only at h
          rcases hd : create_deployment o project_id target_path true environment
            with ⟨r3, t3⟩
          rw [hd] at h
          cases r3 with
          | error e => simp at h
          | ok deployment_id =>
            dsimp only at h
            rcases hp : poll_deployment_status o project_id deployment_id with ⟨r4, t4⟩
            rw [hp] at h
            cases r4 with
            | error e => simp at h
            | ok dep =>
              dsimp only at h
              exact url_ok_https o dep project_id environment url h

/-- Witness for `deploy_url_https` on a full successful run. -/
theorem deploy_url_https_witness :
    strStartsWith "https://"
      "https://preview123.pages.dev?eo_token=abc&eo_time=1700000000" = true :=
  deploy_url_https happyOracle base_urls "" "dify-upload-1700000000" "/tmp/x/site.zip"
    "Preview" "https://preview123.pages.dev?eo_token=abc&eo_time=1700000000" (by decide)

/-! ## The upload-key round trip (claim C3) -/

/-- Does a trace avoid CreatePagesDeployment requests entirely? -/
def noCreateDeployment (t : List Event) : Bool :=
  t.all fun e => !isCreateDeploymentEv e

/-- Splitting `noCreateDeployment` over an appended trace. -/
theorem noCD_append (a b : List Event) :
    noCreateDeployment (a ++ b) = (noCreateDeployment a && noCreateDeployment b) := by
  simp [noCreateDeployment]

/-- Members of a `noCreateDeployment` trace are not creation requests. -/
theorem noCD_mem {t : List Event} (h : noCreateDeployment t = true)
    {e : Event} (he : e ∈ t) : isCreateDeploymentEv e = false := by
  simp only [noCreateDeployment, List.all_eq_true] at h
  have h2 := h e he
  simpa using h2

/-- The temp-token stage never issues a CreatePagesDeployment request. -/
theorem get_cos_temp_token_noCD (o : Oracle) (pn tpn : String) :
    noCreateDeployment (get_cos_temp_token o pn tpn).2 = true := by
  unfold get_cos_temp_token
  dsimp only
  repeat' split
  all_goals rfl

/-- The upload stage never issues a CreatePagesDeployment request. -/
theorem upload_to_cos_noCD (o : Oracle) (pn tpn lp : String) :
    noCreateDeployment (upload_to_cos o pn tpn lp).2 = true := by
  unfold upload_to_cos
  rcases hg : get_cos_temp_token o pn tpn with ⟨r, t⟩
  have ht : noCreateDeployment t = true := by
    have h0 := get_cos_temp_token_noCD o pn tpn
    rw [hg] at h0; exact h0
  cases r with
  | error e => exact ht
  | ok payload =>
    dsimp only
    split <;> (rw [noCD_append, ht]; rfl)

/-- Project creation never issues a CreatePagesDeployment request. -/
theorem create_project_noCD (o : Oracle) (pn tpn : String) :
    noCreateDeployment (create_project o pn tpn).2 = true := by
  unfold create_project
  dsimp only
  repeat' split
  all_goals rfl

/-- Project resolution never issues a CreatePagesDeployment request. -/
theorem get_or_create_project_noCD (o : Oracle) (pn tpn : String) :
    noCreateDeployment (get_or_create_project o pn tpn).2 = true := by
  unfold get_or_create_project
  split
  · dsimp only
    rcases hcp : create_project o pn tpn with ⟨r, t⟩
    have h0 := create_project_noCD o pn tpn
    rw [hcp] at h0
    split
    all_goals first
      | rfl
      | (dsimp only
         simp only [noCreateDeployment, List.all_cons, List.all_eq_true,
           Bool.and_eq_true, Bool.not_eq_true'] at h0 ⊢
         exact ⟨rfl, h0⟩)
  · exact create_project_noCD o pn tpn

/-- The status poller never issues a CreatePagesDeployment request. -/
theorem pollLoop_noCD (o : Oracle) (pid did : String) :
    ∀ fuel attempt, noCreateDeployment (pollLoop o pid did attempt fuel).2 = true := by
  intro fuel
  induction fuel with
  | zero => intro attempt; rfl
  | succ m ih =>
    intro attempt
    unfold pollLoop
    rcases hg : get_deployment_status o pid did attempt with ⟨r, t⟩
    have ht : t = [Event.api (.describeDeployments pid)] := by
      have h0 := get_deployment_status_trace o pid did attempt
      rw [hg] at h0; exact h0
    subst ht
    cases r with
    | error e => rfl
    | ok d =>
      dsimp only
      split
      · rfl
      · rcases hp : pollLoop o pid did (attempt + 1) m with ⟨r2, t2⟩
        have h2 := ih (attempt + 1)
        rw [hp] at h2
        dsimp only
        simp only [noCreateDeployment, List.all_append, List.all_cons,
          List.all_eq_true, Bool.and_eq_true, Bool.not_eq_true'] at h2 ⊢
        exact ⟨⟨rfl, by simp⟩, rfl, h2⟩

/-- The URL resolver never issues a CreatePagesDeployment request. -/
theorem get_deployment_url_noCD (o : Oracle) (dep : Deployment) (pid env : String) :
    noCreateDeployment (get_deployment_url o dep pid env).2 = true := by
  unfold get_deployment_url
  dsimp only
  repeat' split
  all_goals rfl

/-- The single creation request of `_create_deployment` and its
TempBucketPath, whatever the platform answers. -/
theorem create_deployment_trace (o : Oracle) (project_id target_path : String)
    (z : Bool) (environment : String) :
    (create_deployment o project_id target_path z environment).2 =
      [Event.api (.createDeployment project_id environment
        (if z then "Zip" else "Folder") target_path)] := by
  unfold create_deployment
  dsimp only
  repeat' split
  all_goals rfl

/-- Decomposition of a successful upload: the platform granted a token
payload, the key is `TargetPath/basename`, and the transport accepted
the put at that key. -/
theorem upload_to_cos_ok_parts (o : Oracle) (pn tpn lp key : String)
    (h : (upload_to_cos o pn tpn lp).1 = .ok key) :
    ∃ payload t2, get_cos_temp_token o pn tpn = (.ok payload, t2) ∧
      key = payload.targetPath ++ "/" ++ basename lp ∧
      o.uploadOk key = true := by
  unfold upload_to_cos at h
  rcases hg : get_cos_temp_token o pn tpn with ⟨r, t⟩
  rw [hg] at h
  cases r with
  | error e => simp at h
  | ok payload =>
    dsimp only at h
    split at h
    · rename_i hup
      simp at h
      subst h
      exact ⟨payload, t, rfl, rfl, hup⟩
    · simp at h

/-- Reconstruction of a successful upload run from its parts. -/
theorem upload_to_cos_of_parts (o : Oracle) (pn tpn lp key : String)
    (payload : CosTokenPayload) (t2 : List Event)
    (hg : get_cos_temp_token o pn tpn = (.ok payload, t2))
    (hkey : key = payload.targetPath ++ "/" ++ basename lp)
    (hup : o.uploadOk key = true) :
    upload_to_cos o pn tpn lp = (.ok key, t2 ++ [Event.upload payload.bucket key]) := by
  subst hkey
  unfold upload_to_cos
  rw [hg]
  dsimp only
  rw [if_pos hup]

/-- A token payload returned by `_get_cos_temp_token` is the platform's
answer for some request scope. -/
theorem get_cos_temp_token_ok_scope (o : Oracle) (pn tpn : String)
    (payload : CosTokenPayload)
    (h : (get_cos_temp_token o pn tpn).1 = .ok payload) :
    ∃ scope, o.cosTempToken scope = .ok payload := by
  unfold get_cos_temp_token at h
  dsimp only at h
  split at h
  · split at h
    · simp at h
    · simp at h
    · split at h
      · simp at h
      · rename_i payload2 heq2
        simp at h
        subst h
        exact ⟨_, heq2⟩
  · split at h
    · simp at h
    · rename_i payload2 heq2
      simp at h
      subst h
      exact ⟨_, heq2⟩

/-- C3: every CreatePagesDeployment request issued during a deploy
carries as TempBucketPath exactly the key the upload stage returned;
that key equals `TargetPath ++ "/" ++ basename local_path` for the
token payload granted by the platform, and the storage upload was
performed at that very key. -/
theorem upload_key_roundtrip (o : Oracle) (urls : List String)
    (project_name temp_project_name local_path environment : String)
    (pid env2 dt tbp : String)
    (hmem : Event.api (.createDeployment pid env2 dt tbp) ∈
      (deployCore o urls project_name temp_project_name local_path environment).2) :
    (upload_to_cos o project_name temp_project_name local_path).1 = .ok tbp ∧
    (∃ scope payload, o.cosTempToken scope = .ok payload ∧
      tbp = payload.targetPath ++ "/" ++ basename local_path) ∧
    (∃ b, Event.upload b tbp ∈
      (upload_to_cos o project_name temp_project_name local_path).2) := by
  unfold deployCore at hmem
  rcases hc : check_and_set_base_url o.probe urls with ⟨r0, t0⟩
  rw [hc] at hmem
  have ht0 : ∀ e ∈ t0, ∃ u, e = Event.probe u := by
    have h0 := check_trace_probes o.probe urls
    rw [hc] at h0; exact h0
  cases r0 with
  | error e =>
    rcases ht0 _ hmem with ⟨u, hu0⟩
    simp at hu0
  | ok b =>
    dsimp only at hmem
    split at hmem
    · rcases ht0 _ hmem with ⟨u, hu0⟩
      simp at hu0
    · rcases hu : upload_to_cos o project_name temp_project_name local_path with ⟨r1, t1⟩
      rw [hu] at hmem
      have ht1 : noCreateDeployment t1 = true := by
        have h0 := upload_to_cos_noCD o project_name temp_project_name local_path
        rw [hu] at h0; exact h0
      cases r1 with
      | error e =>
        dsimp only at hmem
        rcases List.mem_append.mp hmem with hm | hm
        · rcases ht0 _ hm with ⟨u, hu0⟩
          simp at hu0
        · have h0 := noCD_mem ht1 hm
          simp [isCreateDeploymentEv] at h0
      | ok target_path =>
        dsimp only at hmem
        rcases hg : get_or_create_project o project_name temp_project_name with ⟨r2, t2⟩
        rw [hg] at hmem
        have ht2 : noCreateDeployment t2 = true := by
          have h0 := get_or_create_project_noCD o project_name temp_project_name
          rw [hg] at h0; exact h0
        have key_concl : tbp = target_path →
            (upload_to_cos o project_name temp_project_name local_path).1 = .ok tbp ∧
            (∃ scope payload, o.cosTempToken scope = .ok payload ∧
              tbp = payload.targetPath ++ "/" ++ basename local_path) ∧
            (∃ b2, Event.upload b2 tbp ∈
              (upload_to_cos o project_name temp_project_name local_path).2) := by
          intro hkey
          subst hkey
          have hok : (upload_to_cos o project_name temp_project_name local_path).1 =
              .ok tbp := by rw [hu]
          obtain ⟨payload, tt, hg2, hkey2, hup2⟩ :=
            upload_to_cos_ok_parts o project_name temp_project_name local_path tbp hok
          have hueq := upload_to_cos_of_parts o project_name temp_project_name
            local_path tbp payload tt hg2 hkey2 hup2
          refine ⟨hok, ⟨?_, ?_⟩⟩
          · obtain ⟨scope, hsc⟩ := get_cos_temp_token_ok_scope o project_name
              temp_project_name payload (by rw [hg2])
            exact ⟨scope, payload, hsc, hkey2⟩
          · exact ⟨payload.bucket, by rw [hueq]; simp⟩
        cases r2 with
        | error e =>
          dsimp only at hmem
          simp only [List.mem_append] at hmem
          rcases hmem with (hm | hm) | hm
          · rcases ht0 _ hm with ⟨u, hu0⟩; simp at hu0
          · have h0 := noCD_mem ht1 hm; simp [isCreateDeploymentEv] at h0
          · have h0 := noCD_mem ht2 hm; simp [isCreateDeploymentEv] at h0
        | ok project_id =>
          dsimp only at hmem
          rcases hd : create_deployment o project_id target_path true environment
            with ⟨r3, t3⟩
          rw [hd] at hmem
          have ht3 : t3 = [Event.api (.createDeployment project_id environment
              "Zip" target_path)] := by
            have h0 := create_deployment_trace o project_id target_path true environment
            rw [hd] at h0
            simpa using h0
          have from_t3 : Event.api (.createDeployment pid env2 dt tbp) ∈ t3 →
              tbp = target_path := by
            intro hm
            rw [ht3] at hm
            simp at hm
            exact hm.2.2.2
          cases r3 with
          | error e =>
            dsimp only at hmem
            simp only [List.mem_append] at hmem
            rcases hmem with ((hm | hm) | hm) | hm
            · rcases ht0 _ hm with ⟨u, hu0⟩; simp at hu0
            · have h0 := noCD_mem ht1 hm; simp [isCreateDeploymentEv] at h0
            · have h0 := noCD_mem ht2 hm; simp [isCreateDeploymentEv] at h0
            · have kc := key_concl (from_t3 hm)
              rw [hu] at kc
              exact kc
          | ok deployment_id =>
            dsimp only at hmem
            rcases hp : poll_deployment_status o project_id deployment_id with ⟨r4, t4⟩
            rw [hp] at hmem
            have ht4 : noCreateDeployment t4 = true := by
              have h0 := pollLoop_noCD o project_id deployment_id 60 0
              rw [show pollLoop o project_id deployment_id 0 60 =
                poll_deployment_status o project_id deployment_id from rfl, hp] at h0
              exact h0
            cases r4 with
            | error e =>
              dsimp only at hmem
              simp only [List.mem_append] at hmem
              rcases hmem with (((hm | hm) | hm) | hm) | hm
              · rcases ht0 _ hm with ⟨u, hu0⟩; simp at hu0
              · have h0 := noCD_mem ht1 hm; simp [isCreateDeploymentEv] at h0
              · have h0 := noCD_mem ht2 hm; simp [isCreateDeploymentEv] at h0
              · have kc := key_concl (from_t3 hm)
                rw [hu] at kc
                exact kc
              · have h0 := noCD_mem ht4 hm; simp [isCreateDeploymentEv] at h0
            | ok dep =>
              dsimp only at hmem
              have ht5 : noCreateDeployment
                  (get_deployment_url o dep project_id environment).2 = true :=
                get_deployment_url_noCD o dep project_id environment
              simp only [List.mem_append] at hmem
              rcases hmem with ((((hm | hm) | hm) | hm) | hm) | hm
              · rcases ht0 _ hm with ⟨u, hu0⟩; simp at hu0
              · have h0 := noCD_mem ht1 hm; simp [isCreateDeploymentEv] at h0
              · have h0 := noCD_mem ht2 hm; simp [isCreateDeploymentEv] at h0
              · have kc := key_concl (from_t3 hm)
                rw [hu] at kc
                exact kc
              · have h0 := noCD_mem ht4 hm; simp [isCreateDeploymentEv] at h0
              · have h0 := noCD_mem ht5 hm; simp [isCreateDeploymentEv] at h0

/-- Witness for `upload_key_roundtrip` on a full successful run. -/
theorem upload_key_roundtrip_witness :
    (Event.api (.createDeployment "pid1" "Preview" "Zip" "tp/site.zip") ∈
      (deployCore happyOracle base_urls "" "dify-upload-1700000000" "/tmp/x/site.zip"
        "Preview").2) ∧
    ((upload_to_cos happyOracle "" "dify-upload-1700000000" "/tmp/x/site.zip").1 =
      .ok "tp/site.zip" ∧
    (∃ scope payload, happyOracle.cosTempToken scope = .ok payload ∧
      "tp/site.zip" = payload.targetPath ++ "/" ++ basename "/tmp/x/site.zip") ∧
    (∃ b, Event.upload b "tp/site.zip" ∈
      (upload_to_cos happyOracle "" "dify-upload-1700000000" "/tmp/x/site.zip").2)) :=
  ⟨by decide, upload_key_roundtrip happyOracle base_urls "" "dify-upload-1700000000"
    "/tmp/x/site.zip" "Preview" "pid1" "Preview" "Zip" "tp/site.zip" (by decide)⟩

end EdgeOne
